import Mathlib

/-!
Verification of the `GlitchText` animation engine
(`src/apps/frontend/scripts/generate-favicon.ts`, class `GlitchText`).

The engine is shallowly embedded: JavaScript numbers are modelled as
rationals (`ℚ`), tile counts and pixel coordinates as integers, optional
fields as `Option`, and throwing functions as `Except String`.
-/

namespace GlitchText

/-- The merged configuration record (`GlitchTextConfig` in the source).
`tiles` and `tileDimensions` are the two optional tile specifications. -/
structure GlitchTextConfig where
  textA : String
  textB : String
  textC : String
  fontFamily : String
  tiles : Option (ℤ × ℤ)
  tileDimensions : Option (ℚ × ℚ)
  initialWaitDuration : ℚ
  allTilesFlipDuration : ℚ
  singleTileFlipDuration : ℚ
  waitBetweenFlipsDuration : ℚ
  finalWaitDuration : ℚ
  invertThreshold : ℚ
  resizeDebounceMs : ℚ
deriving DecidableEq

/-- `config.tiles && (config.tiles.x < 1 || config.tiles.y < 1)`. -/
def tilesTooSmall (tiles : Option (ℤ × ℤ)) : Bool :=
  match tiles with
  | some t => t.1 < 1 || t.2 < 1
  | none => false

/-- `config.tileDimensions && (config.tileDimensions.x <= 0 || config.tileDimensions.y <= 0)`. -/
def tileDimensionsNonpositive (tileDimensions : Option (ℚ × ℚ)) : Bool :=
  match tileDimensions with
  | some d => d.1 ≤ 0 || d.2 ≤ 0
  | none => false

/-- `validateConfig` from the source: the sequence of `throw` conditions, in
source order; a throw is modelled as `Except.error` with the source message. -/
def validateConfig (config : GlitchTextConfig) : Except String Unit :=
  if config.singleTileFlipDuration > config.allTilesFlipDuration then
    .error "singleTileFlipDuration must be ≤ allTilesFlipDuration"
  else if config.allTilesFlipDuration ≤ 0 then
    .error "allTilesFlipDuration must be > 0"
  else if config.singleTileFlipDuration ≤ 0 then
    .error "singleTileFlipDuration must be > 0"
  else if config.invertThreshold < 0 ∨ config.invertThreshold > 1 then
    .error "invertThreshold must be between 0 and 1"
  else if tilesTooSmall config.tiles then
    .error "tiles must be at least 1x1"
  else if tileDimensionsNonpositive config.tileDimensions then
    .error "tileDimensions must be > 0 in both dimensions"
  else if config.tiles.isSome && config.tileDimensions.isSome then
    .error "Cannot specify both tiles and tileDimensions. Provide only one."
  else
    .ok ()

/-- The options record (`GlitchTextOptions` in the source): every field with a
default is optional.  `tileDimensions` distinguishes an omitted property
(`none`) from one explicitly passed as `undefined` (`some none`), because a
spread `{...DEFAULTS, ...options}` overrides the default in the second case
but not the first.  `tiles` has no default, so omitted and explicitly
`undefined` coincide. -/
structure GlitchTextOptions where
  textA : String
  textB : String
  textC : String
  fontFamily : Option String
  tiles : Option (ℤ × ℤ)
  tileDimensions : Option (Option (ℚ × ℚ))
  initialWaitDuration : Option ℚ
  allTilesFlipDuration : Option ℚ
  singleTileFlipDuration : Option ℚ
  waitBetweenFlipsDuration : Option ℚ
  finalWaitDuration : Option ℚ
  invertThreshold : Option ℚ
  resizeDebounceMs : Option ℚ
deriving DecidableEq

/-- `this.config = { ...DEFAULTS, ...options }`: the source `DEFAULTS` merged
with the caller's options. -/
def mkConfig (o : GlitchTextOptions) : GlitchTextConfig where
  textA := o.textA
  textB := o.textB
  textC := o.textC
  fontFamily := o.fontFamily.getD "Cormorant Garamond"
  tiles := o.tiles
  tileDimensions :=
    match o.tileDimensions with
    | none => some (8, 8)
    | some v => v
  initialWaitDuration := o.initialWaitDuration.getD (2/10)
  allTilesFlipDuration := o.allTilesFlipDuration.getD (5/10)
  singleTileFlipDuration := o.singleTileFlipDuration.getD (1/10)
  waitBetweenFlipsDuration := o.waitBetweenFlipsDuration.getD (3/10)
  finalWaitDuration := o.finalWaitDuration.getD (2/10)
  invertThreshold := o.invertThreshold.getD 0
  resizeDebounceMs := o.resizeDebounceMs.getD 100

/-- `calculateTiles` from the source. -/
def calculateTiles (config : GlitchTextConfig) (width height : ℚ) : ℤ × ℤ :=
  match config.tiles with
  | some t => t
  | none =>
    match config.tileDimensions with
    | some d => (max 1 ⌊width / d.1⌋, max 1 ⌊height / d.2⌋)
    | none => (1, 1)

/-- The fields of a freshly constructed engine that the constructor assigns
before starting the frame loop. -/
structure EngineInit where
  config : GlitchTextConfig
  useTileDimensions : Bool
  tiles : ℤ × ℤ
  morphProgress : ℚ
  direction : ℤ
  totalElapsedTime : ℚ
deriving DecidableEq

/-- The `GlitchText` constructor up to the start of the frame loop: merge
defaults, validate (throwing synchronously before any state is built), then
derive the tile mode and tile grid; timeline fields start at zero. -/
def construct (o : GlitchTextOptions) (width height : ℚ) : Except String EngineInit :=
  let config := mkConfig o
  match validateConfig config with
  | .error e => .error e
  | .ok _ =>
    .ok { config := config
          useTileDimensions := config.tileDimensions.isSome
          tiles := calculateTiles config width height
          morphProgress := 0
          direction := 0
          totalElapsedTime := 0 }

/-- The `totalDuration` getter: the five durations added in source order
(`allTilesFlipDuration` appears twice). -/
def totalDuration (c : GlitchTextConfig) : ℚ :=
  c.initialWaitDuration + c.allTilesFlipDuration + c.waitBetweenFlipsDuration +
    c.allTilesFlipDuration + c.finalWaitDuration

/-- `totalDuration` as the fragment shader computes it:
`uInitialWaitDuration + 2.0 * uAllTilesFlipDuration + uWaitBetweenFlipsDuration + uFinalWaitDuration`. -/
def shaderTotalDuration (c : GlitchTextConfig) : ℚ :=
  c.initialWaitDuration + 2 * c.allTilesFlipDuration + c.waitBetweenFlipsDuration +
    c.finalWaitDuration

/-- Shader phase boundary `initialWaitEnd`. -/
def initialWaitEnd (c : GlitchTextConfig) : ℚ :=
  c.initialWaitDuration / shaderTotalDuration c

/-- Shader phase boundary `flipABEnd`. -/
def flipABEnd (c : GlitchTextConfig) : ℚ :=
  (c.initialWaitDuration + c.allTilesFlipDuration) / shaderTotalDuration c

/-- Shader phase boundary `waitBetweenEnd`. -/
def waitBetweenEnd (c : GlitchTextConfig) : ℚ :=
  (c.initialWaitDuration + c.allTilesFlipDuration + c.waitBetweenFlipsDuration) /
    shaderTotalDuration c

/-- Shader phase boundary `flipBCEnd`. -/
def flipBCEnd (c : GlitchTextConfig) : ℚ :=
  (c.initialWaitDuration + c.allTilesFlipDuration + c.waitBetweenFlipsDuration +
    c.allTilesFlipDuration) / shaderTotalDuration c

/-- The five timeline phases distinguished by the shader's `if` chain. -/
inductive Phase where
  | holdA : Phase
  | flipAB : Phase
  | holdB : Phase
  | flipBC : Phase
  | holdC : Phase
deriving DecidableEq

/-- Which branch of the shader's `if` chain a morph-progress value selects. -/
def selectPhase (c : GlitchTextConfig) (morphProgress : ℚ) : Phase :=
  if morphProgress < initialWaitEnd c then .holdA
  else if morphProgress < flipABEnd c then .flipAB
  else if morphProgress < waitBetweenEnd c then .holdB
  else if morphProgress < flipBCEnd c then .flipBC
  else .holdC

/-- A concrete configuration with the durations used in the spec's worked
example (`initialWait=0.2, allTilesFlip=0.5, betweenWait=0.3, finalWait=0.2`). -/
def exampleConfig : GlitchTextConfig where
  textA := "A"
  textB := "B"
  textC := "C"
  fontFamily := "Cormorant Garamond"
  tiles := none
  tileDimensions := some (8, 8)
  initialWaitDuration := 2/10
  allTilesFlipDuration := 5/10
  singleTileFlipDuration := 1/10
  waitBetweenFlipsDuration := 3/10
  finalWaitDuration := 2/10
  invertThreshold := 0
  resizeDebounceMs := 100

/-! ## Timeline (the `animate` frame callback, `setHover`) -/

/-- The mutable timeline fields of the engine together with the two uniforms
the frame callback writes. -/
structure TimelineState where
  totalElapsedTime : ℚ
  morphProgress : ℚ
  direction : ℤ
  uMorphProgress : ℚ
  uTime : ℚ
deriving DecidableEq

/-- One execution of the `animate` callback body with wall-clock delta
`deltaTime` (seconds): when `direction ≠ 0`, advance `totalElapsedTime` by
`deltaTime * direction`, clamp it to `[0, totalDuration]`, recompute
`morphProgress` and push it into the `uMorphProgress` uniform; always bump
`uTime` by 0.016. -/
def animateStep (c : GlitchTextConfig) (s : TimelineState) (deltaTime : ℚ) : TimelineState :=
  let s1 :=
    if s.direction ≠ 0 then
      let e := s.totalElapsedTime + deltaTime * (s.direction : ℚ)
      let e2 := max 0 (min (totalDuration c) e)
      let p := e2 / totalDuration c
      { s with totalElapsedTime := e2, morphProgress := p, uMorphProgress := p }
    else s
  { s1 with uTime := s1.uTime + 16/1000 }

/-- `setHover` from the source. -/
def setHover (s : TimelineState) (hover : Bool) : TimelineState :=
  let newDirection : ℤ := if hover then 1 else -1
  if newDirection ≠ s.direction then { s with direction := newDirection } else s

/-- The timeline fields as the constructor initialises them. -/
def initialTimeline : TimelineState where
  totalElapsedTime := 0
  morphProgress := 0
  direction := 0
  uMorphProgress := 0
  uTime := 0

/-! ## The fragment shader -/

/-- A GLSL `vec4` colour. -/
structure Vec4 where
  r : ℚ
  g : ℚ
  b : ℚ
  a : ℚ
deriving DecidableEq

/-- GLSL `clamp`. -/
def glslClamp (x minVal maxVal : ℚ) : ℚ := min (max x minVal) maxVal

/-- GLSL `smoothstep`. -/
def smoothstep (edge0 edge1 x : ℚ) : ℚ :=
  let t := glslClamp ((x - edge0) / (edge1 - edge0)) 0 1
  t * t * (3 - 2 * t)

/-- GLSL `step`. -/
def glslStep (edge x : ℚ) : ℚ := if x < edge then 0 else 1

/-- GLSL `mix` on scalars. -/
def glslMix (x y a : ℚ) : ℚ := x * (1 - a) + y * a

/-- GLSL `mix` on `vec4`, componentwise. -/
def mix4 (u v : Vec4) (t : ℚ) : Vec4 :=
  ⟨glslMix u.r v.r t, glslMix u.g v.g t, glslMix u.b v.b t, glslMix u.a v.a t⟩

/-- The fragment shader's `main`, given the values the GPU supplies per
fragment: the `uMorphProgress` uniform, the per-tile `random(tileUV)` value
`noise`, the three text texels sampled at `vUv`, and the three presence
texels sampled at `presenceUV` (0 or 1 after normalisation).  The GLSL
declares `hasTextTarget` without initialising it and only assigns it in the
two flip branches; in the three hold branches its value is irrelevant
(`flipProgress = 0` forces `invert = 0` and `mix(tex1, tex1, 0) = tex1`), and
it is modelled as 0 there. -/
def shadeFragment (c : GlitchTextConfig) (morphProgress noise : ℚ)
    (texA texB texC : Vec4) (presenceA presenceB presenceC : ℚ) : Vec4 :=
  let branch :=
    if morphProgress < initialWaitEnd c then
      ((0 : ℚ), texA, texA, presenceA, (0 : ℚ))
    else if morphProgress < flipABEnd c then
      let phaseProgress := (morphProgress - initialWaitEnd c) / (flipABEnd c - initialWaitEnd c)
      let flipStartTime :=
        noise * (c.allTilesFlipDuration - c.singleTileFlipDuration) / c.allTilesFlipDuration
      let flipWindowStart := flipStartTime
      let flipWindowEnd := flipStartTime + c.singleTileFlipDuration / c.allTilesFlipDuration
      (smoothstep flipWindowStart flipWindowEnd phaseProgress, texA, texB, presenceA, presenceB)
    else if morphProgress < waitBetweenEnd c then
      ((0 : ℚ), texB, texB, presenceB, (0 : ℚ))
    else if morphProgress < flipBCEnd c then
      let phaseProgress := (morphProgress - waitBetweenEnd c) / (flipBCEnd c - waitBetweenEnd c)
      let flipStartTime :=
        noise * (c.allTilesFlipDuration - c.singleTileFlipDuration) / c.allTilesFlipDuration
      let flipWindowStart := flipStartTime
      let flipWindowEnd := flipStartTime + c.singleTileFlipDuration / c.allTilesFlipDuration
      (smoothstep flipWindowStart flipWindowEnd phaseProgress, texB, texC, presenceB, presenceC)
    else
      ((0 : ℚ), texC, texC, presenceC, (0 : ℚ))
  let flipProgress := branch.1
  let tex1 := branch.2.1
  let tex2 := branch.2.2.1
  let hasTextSource := branch.2.2.2.1
  let hasTextTarget := branch.2.2.2.2
  let hasText := max hasTextSource hasTextTarget
  let invert := glslStep c.invertThreshold noise * flipProgress * hasText
  let tex1f := if invert > 1/2 then Vec4.mk 0 0 0 (1 - tex1.a) else tex1
  mix4 tex1f tex2 flipProgress

/-! ## The per-tile flip schedule, written as the spec states it (§4.4) -/

/-- Spec formula: `flipWindowStart = r × (allTilesFlipDuration − singleTileFlipDuration) / allTilesFlipDuration`. -/
def flipWindowStart (c : GlitchTextConfig) (r : ℚ) : ℚ :=
  r * (c.allTilesFlipDuration - c.singleTileFlipDuration) / c.allTilesFlipDuration

/-- Spec formula: `flipWindowEnd = flipWindowStart + singleTileFlipDuration / allTilesFlipDuration`. -/
def flipWindowEnd (c : GlitchTextConfig) (r : ℚ) : ℚ :=
  flipWindowStart c r + c.singleTileFlipDuration / c.allTilesFlipDuration

/-- Spec formula: `flipAmount = smoothstep(flipWindowStart, flipWindowEnd, p)`. -/
def flipAmount (c : GlitchTextConfig) (r p : ℚ) : ℚ :=
  smoothstep (flipWindowStart c r) (flipWindowEnd c r) p

/-- Spec formula: `invert = step(invertThreshold, r) × flipAmount × max(presenceSource, presenceTarget)`. -/
def invertAmount (c : GlitchTextConfig) (r p presenceSource presenceTarget : ℚ) : ℚ :=
  glslStep c.invertThreshold r * flipAmount c r p * max presenceSource presenceTarget

/-- The spec's final per-pixel colour for a flip phase: when `invert` exceeds
0.5 the source colour becomes RGB black with alpha `1 − originalAlpha`, then
the result is blended toward the target by `flipAmount`. -/
def specFlipOutput (c : GlitchTextConfig) (r p presenceSource presenceTarget : ℚ)
    (srcTex tgtTex : Vec4) : Vec4 :=
  let tex1 :=
    if invertAmount c r p presenceSource presenceTarget > 1/2 then
      Vec4.mk 0 0 0 (1 - srcTex.a)
    else srcTex
  mix4 tex1 tgtTex (flipAmount c r p)

/-! ## Presence extraction (`scanTileForText`, `createPresenceTexture`) -/

/-- `scanTileForText` from the source.  `pixelsAlpha x y` is the alpha byte at
pixel `(x, y)` (`pixels[(y * canvasWidth + x) * 4 + 3]`).  The doubly nested
loop with early return is equivalent to a bounded existential over the
scanned rectangle. -/
def scanTileForText (pixelsAlpha : ℤ → ℤ → ℕ) (canvasWidth canvasHeight : ℤ)
    (tileX tileY : ℤ) (tileWidth tileHeight : ℚ) : Bool :=
  let startX := ⌊(tileX : ℚ) * tileWidth⌋
  let startY := ⌊(tileY : ℚ) * tileHeight⌋
  let endX := min (startX + ⌈tileWidth⌉) canvasWidth
  let endY := min (startY + ⌈tileHeight⌉) canvasHeight
  decide (∃ y ∈ Finset.Ico startY endY, ∃ x ∈ Finset.Ico startX endX, 0 < pixelsAlpha x y)

/-- The value `createPresenceTexture` stores at
`presenceData[tileY * tiles.x + tileX]`, with
`tileWidth = width / tiles.x` and `tileHeight = height / tiles.y`. -/
def presenceValue (pixelsAlpha : ℤ → ℤ → ℕ) (canvasWidth canvasHeight : ℤ)
    (tilesX tilesY : ℤ) (tileX tileY : ℤ) : ℕ :=
  let tileWidth : ℚ := (canvasWidth : ℚ) / (tilesX : ℚ)
  let tileHeight : ℚ := (canvasHeight : ℚ) / (tilesY : ℚ)
  if scanTileForText pixelsAlpha canvasWidth canvasHeight tileX tileY tileWidth tileHeight
  then 255 else 0

/-- Modelled from the spec's words for comparison (claim C3): the scanned
rectangle runs from `floor(tileIndex * cellSize)` (inclusive) to
`min(ceil((tileIndex+1) * cellSize), surfaceExtent)` (exclusive) in each
axis.  This is NOT what `scanTileForText` computes; it is the reference
against which the code's rectangle is compared. -/
def scanTileSpec (pixelsAlpha : ℤ → ℤ → ℕ) (canvasWidth canvasHeight : ℤ)
    (tileX tileY : ℤ) (tileWidth tileHeight : ℚ) : Bool :=
  let startX := ⌊(tileX : ℚ) * tileWidth⌋
  let startY := ⌊(tileY : ℚ) * tileHeight⌋
  let endX := min ⌈((tileX : ℚ) + 1) * tileWidth⌉ canvasWidth
  let endY := min ⌈((tileY : ℚ) + 1) * tileHeight⌉ canvasHeight
  decide (∃ y ∈ Finset.Ico startY endY, ∃ x ∈ Finset.Ico startX endX, 0 < pixelsAlpha x y)

/-- The presence value the spec's rectangle formula would produce. -/
def presenceValueSpec (pixelsAlpha : ℤ → ℤ → ℕ) (canvasWidth canvasHeight : ℤ)
    (tilesX tilesY : ℤ) (tileX tileY : ℤ) : ℕ :=
  let tileWidth : ℚ := (canvasWidth : ℚ) / (tilesX : ℚ)
  let tileHeight : ℚ := (canvasHeight : ℚ) / (tilesY : ℚ)
  if scanTileSpec pixelsAlpha canvasWidth canvasHeight tileX tileY tileWidth tileHeight
  then 255 else 0

/-- An alpha surface of width 5 and height 1 whose only opaque pixel is
`(3, 0)`.  With 3 tiles across, tile 1 scans `x ∈ [1, 3)` in the code but
`x ∈ [1, 4)` under the spec's rectangle formula, so the two disagree here. -/
def counterexampleAlpha : ℤ → ℤ → ℕ := fun x y => if x = 3 ∧ y = 0 then 255 else 0

/-! ## Resize debouncing (`resize`, `updateTextures`) -/

/-- The engine state the resize path touches.  `resizeTimeout` holds the
pending debounce timer: its absolute fire time plus the `(width, height)`
the `setTimeout` closure captured.  `regenerations` logs each
`updateTextures` run with the size it regenerated at. -/
structure ResizeState where
  rendererWidth : ℚ
  rendererHeight : ℚ
  resolutionX : ℚ
  resolutionY : ℚ
  resizeTimeout : Option (ℚ × ℚ × ℚ)
  tilesGrid : ℤ × ℤ
  regenerations : List (ℚ × ℚ)
deriving DecidableEq

/-- One `resize(width, height)` call at wall-clock time `now`: immediately
resize the renderer and the `uResolution` uniform, clear any pending debounce
timer, and schedule a new one at `now + resizeDebounceMs` capturing the new
size. -/
def resizeCall (c : GlitchTextConfig) (s : ResizeState) (now width height : ℚ) : ResizeState :=
  { s with
    rendererWidth := width
    rendererHeight := height
    resolutionX := width
    resolutionY := height
    resizeTimeout := some (now + c.resizeDebounceMs, width, height) }

/-- The debounce timer's callback: in tile-pixel-size mode recompute the tile
grid from the captured size, then regenerate all textures and presence masks
at that size (`updateTextures`). -/
def fireResizeTimeout (c : GlitchTextConfig) (useTileDimensions : Bool)
    (s : ResizeState) : ResizeState :=
  match s.resizeTimeout with
  | none => s
  | some (_, w, h) =>
    let s1 := if useTileDimensions then { s with tilesGrid := calculateTiles c w h } else s
    { s1 with resizeTimeout := none, regenerations := s1.regenerations ++ [(w, h)] }

/-- Deliver the pending timer if its fire time has been reached by `now`. -/
def maybeFire (c : GlitchTextConfig) (useTileDimensions : Bool)
    (s : ResizeState) (now : ℚ) : ResizeState :=
  match s.resizeTimeout with
  | some (fireTime, _, _) =>
    if fireTime ≤ now then fireResizeTimeout c useTileDimensions s else s
  | none => s

/-- Process a time-ordered list of `(time, width, height)` resize calls,
delivering the debounce timer before any call whose time has passed it. -/
def processResizes (c : GlitchTextConfig) (useTileDimensions : Bool) :
    ResizeState → List (ℚ × ℚ × ℚ) → ResizeState
  | s, [] => s
  | s, (t, w, h) :: rest =>
    processResizes c useTileDimensions
      (resizeCall c (maybeFire c useTileDimensions s t) t w h) rest

/-- Let enough quiet time pass for a pending debounce timer to fire. -/
def settle (c : GlitchTextConfig) (useTileDimensions : Bool) (s : ResizeState) : ResizeState :=
  fireResizeTimeout c useTileDimensions s

/-- Consecutive calls are each issued strictly less than `debounce` after the
previous one. -/
def gapsLt (debounce : ℚ) : List (ℚ × ℚ × ℚ) → Prop
  | [] => True
  | [_] => True
  | (t1, _, _) :: (t2, w2, h2) :: rest =>
    t2 - t1 < debounce ∧ gapsLt debounce ((t2, w2, h2) :: rest)

/-- The last of a nonempty sequence of calls, written with the head explicit. -/
def lastCall (first : ℚ × ℚ × ℚ) : List (ℚ × ℚ × ℚ) → ℚ × ℚ × ℚ
  | [] => first
  | c :: rest => lastCall c rest

/-! ## Teardown (`destroy`) -/

/-- The handles `destroy` must release, plus logs of disposals and
cancellations.  `animationFrame` and `resizeTimeout` hold the ids of the
pending frame request and debounce timer (`null` = `none`). -/
structure TeardownState where
  animationFrame : Option ℕ
  resizeTimeout : Option ℕ
  texA : ℕ
  texB : ℕ
  texC : ℕ
  presenceA : ℕ
  presenceB : ℕ
  presenceC : ℕ
  renderer : ℕ
  material : ℕ
  geometry : ℕ
  disposed : List ℕ
  cancelledFrames : List ℕ
  cancelledTimeouts : List ℕ
deriving DecidableEq

/-- A `.dispose()` call on a resource handle, recorded in order. -/
def dispose (s : TeardownState) (handle : ℕ) : TeardownState :=
  { s with disposed := s.disposed ++ [handle] }

/-- `destroy` from the source: cancel the pending animation frame when the
field is not `null` (`if (this.animationFrame !== null)`), cancel the
debounce timer when the field is truthy (`if (this.resizeTimeout)` — a 0 id,
which browsers never produce, would be skipped), then dispose the three text
textures, the three presence textures, the renderer, the material and the
mesh geometry, in source order. -/
def destroy (s : TeardownState) : TeardownState :=
  let s1 :=
    match s.animationFrame with
    | some id => { s with cancelledFrames := s.cancelledFrames ++ [id] }
    | none => s
  let s2 :=
    match s1.resizeTimeout with
    | some id =>
      if id ≠ 0 then { s1 with cancelledTimeouts := s1.cancelledTimeouts ++ [id] } else s1
    | none => s1
  let s3 := dispose s2 s.texA
  let s4 := dispose s3 s.texB
  let s5 := dispose s4 s.texC
  let s6 := dispose s5 s.presenceA
  let s7 := dispose s6 s.presenceB
  let s8 := dispose s7 s.presenceC
  let s9 := dispose s8 s.renderer
  let s10 := dispose s9 s.material
  dispose s10 s.geometry

/-- A frame callback can still run: a frame request is registered and its id
was never cancelled. -/
def frameCallbackPending (s : TeardownState) : Prop :=
  ∃ id, s.animationFrame = some id ∧ id ∉ s.cancelledFrames

/-- The debounce timer can still fire: a timer is registered and its id was
never cancelled. -/
def debounceTimerPending (s : TeardownState) : Prop :=
  ∃ id, s.resizeTimeout = some id ∧ id ∉ s.cancelledTimeouts

/-! ## Auxiliary fixtures -/

/-- Whether an `Except` computation succeeded (did not throw). -/
def succeeded {ε α : Type} (r : Except ε α) : Bool :=
  match r with
  | .ok _ => true
  | .error _ => false

/-- Options that request an explicit 4×4 tile grid and pass `tileDimensions`
explicitly as `undefined`, every other optional field omitted. -/
def tilesOnlyOptions : GlitchTextOptions where
  textA := "A"
  textB := "B"
  textC := "C"
  fontFamily := none
  tiles := some (4, 4)
  tileDimensions := some none
  initialWaitDuration := none
  allTilesFlipDuration := none
  singleTileFlipDuration := none
  waitBetweenFlipsDuration := none
  finalWaitDuration := none
  invertThreshold := none
  resizeDebounceMs := none

/-- Options that request an explicit 4×4 tile grid and omit the
`tileDimensions` property entirely. -/
def tilesOmittedDimsOptions : GlitchTextOptions where
  textA := "A"
  textB := "B"
  textC := "C"
  fontFamily := none
  tiles := some (4, 4)
  tileDimensions := none
  initialWaitDuration := none
  allTilesFlipDuration := none
  singleTileFlipDuration := none
  waitBetweenFlipsDuration := none
  finalWaitDuration := none
  invertThreshold := none
  resizeDebounceMs := none

/-- A fresh resize state: no pending debounce timer, nothing regenerated. -/
def freshResizeState : ResizeState where
  rendererWidth := 0
  rendererHeight := 0
  resolutionX := 0
  resolutionY := 0
  resizeTimeout := none
  tilesGrid := (1, 1)
  regenerations := []

/-- A teardown state with a pending frame request and debounce timer and
nine distinct live resource handles. -/
def exampleTeardown : TeardownState where
  animationFrame := some 7
  resizeTimeout := some 3
  texA := 10
  texB := 11
  texC := 12
  presenceA := 13
  presenceB := 14
  presenceC := 15
  renderer := 16
  material := 17
  geometry := 18
  disposed := []
  cancelledFrames := []
  cancelledTimeouts := []

/-! ## Helper lemmas -/

lemma tilesTooSmall_iff (tiles : Option (ℤ × ℤ)) :
    tilesTooSmall tiles = true ↔ ∃ t, tiles = some t ∧ (t.1 < 1 ∨ t.2 < 1) := by
  cases tiles with
  | none => simp [tilesTooSmall]
  | some t => simp [tilesTooSmall]

lemma tileDimensionsNonpositive_iff (tileDimensions : Option (ℚ × ℚ)) :
    tileDimensionsNonpositive tileDimensions = true ↔
      ∃ d, tileDimensions = some d ∧ (d.1 ≤ 0 ∨ d.2 ≤ 0) := by
  cases tileDimensions with
  | none => simp [tileDimensionsNonpositive]
  | some d => simp [tileDimensionsNonpositive]

lemma succeeded_construct (o : GlitchTextOptions) (w h : ℚ) :
    succeeded (construct o w h) = succeeded (validateConfig (mkConfig o)) := by
  simp only [construct]
  cases hv : validateConfig (mkConfig o) <;> simp [hv, succeeded]

lemma animateStep_active (c : GlitchTextConfig) (s : TimelineState) (dt : ℚ)
    (h : s.direction ≠ 0) :
    (animateStep c s dt).totalElapsedTime =
      max 0 (min (totalDuration c) (s.totalElapsedTime + dt * (s.direction : ℚ))) ∧
    (animateStep c s dt).morphProgress =
      (animateStep c s dt).totalElapsedTime / totalDuration c ∧
    (animateStep c s dt).uMorphProgress = (animateStep c s dt).morphProgress ∧
    (animateStep c s dt).direction = s.direction := by
  simp [animateStep, h]

lemma animateStep_idle (c : GlitchTextConfig) (s : TimelineState) (dt : ℚ)
    (h : s.direction = 0) :
    (animateStep c s dt).totalElapsedTime = s.totalElapsedTime ∧
    (animateStep c s dt).morphProgress = s.morphProgress ∧
    (animateStep c s dt).uMorphProgress = s.uMorphProgress ∧
    (animateStep c s dt).direction = s.direction := by
  simp [animateStep, h]

lemma foldl_idle (c : GlitchTextConfig) (dts : List ℚ) :
    ∀ s : TimelineState, s.direction = 0 →
      (List.foldl (animateStep c) s dts).totalElapsedTime = s.totalElapsedTime ∧
      (List.foldl (animateStep c) s dts).morphProgress = s.morphProgress ∧
      (List.foldl (animateStep c) s dts).uMorphProgress = s.uMorphProgress ∧
      (List.foldl (animateStep c) s dts).direction = 0 := by
  induction dts with
  | nil => intro s h; exact ⟨rfl, rfl, rfl, h⟩
  | cons dt dts ih =>
    intro s h
    obtain ⟨h1, h2, h3, h4⟩ := animateStep_idle c s dt h
    obtain ⟨g1, g2, g3, g4⟩ := ih (animateStep c s dt) (h4.trans h)
    refine ⟨?_, ?_, ?_, ?_⟩ <;> simp only [List.foldl_cons]
    · rw [g1, h1]
    · rw [g2, h2]
    · rw [g3, h3]
    · exact g4

lemma foldl_pinned_zero (c : GlitchTextConfig) (dts : List ℚ) :
    (∀ dt ∈ dts, 0 ≤ dt) →
    ∀ s : TimelineState, s.direction = -1 → s.totalElapsedTime = 0 →
      s.morphProgress = 0 → s.uMorphProgress = 0 →
      (List.foldl (animateStep c) s dts).totalElapsedTime = 0 ∧
      (List.foldl (animateStep c) s dts).morphProgress = 0 ∧
      (List.foldl (animateStep c) s dts).uMorphProgress = 0 ∧
      (List.foldl (animateStep c) s dts).direction = -1 := by
  induction dts with
  | nil => intro _ s hd hE hM hU; exact ⟨hE, hM, hU, hd⟩
  | cons dt dts ih =>
    intro hdts s hd hE hM hU
    have hdt : 0 ≤ dt := hdts dt (List.mem_cons_self dt dts)
    have hd' : s.direction ≠ 0 := by rw [hd]; norm_num
    obtain ⟨h1, h2, h3, h4⟩ := animateStep_active c s dt hd'
    have harg : s.totalElapsedTime + dt * (s.direction : ℚ) = -dt := by
      rw [hE, hd]; push_cast; ring
    have hE' : (animateStep c s dt).totalElapsedTime = 0 := by
      rw [h1, harg]
      exact max_eq_left (le_trans (min_le_right _ _) (by linarith))
    have hM' : (animateStep c s dt).morphProgress = 0 := by
      rw [h2, hE', zero_div]
    have hU' : (animateStep c s dt).uMorphProgress = 0 := by rw [h3, hM']
    have hres := ih (fun d hmem => hdts d (List.mem_cons_of_mem dt hmem))
      (animateStep c s dt) (h4.trans hd) hE' hM' hU'
    simpa only [List.foldl_cons] using hres

lemma shadeFragment_flipAB (c : GlitchTextConfig) (mp noise : ℚ)
    (texA texB texC : Vec4) (pA pB pC : ℚ)
    (h1 : ¬ mp < initialWaitEnd c) (h2 : mp < flipABEnd c) :
    shadeFragment c mp noise texA texB texC pA pB pC =
      specFlipOutput c noise ((mp - initialWaitEnd c) / (flipABEnd c - initialWaitEnd c))
        pA pB texA texB := by
  simp only [shadeFragment]
  rw [if_neg h1, if_pos h2]
  rfl

lemma shadeFragment_flipBC (c : GlitchTextConfig) (mp noise : ℚ)
    (texA texB texC : Vec4) (pA pB pC : ℚ)
    (h1 : ¬ mp < initialWaitEnd c) (h2 : ¬ mp < flipABEnd c)
    (h3 : ¬ mp < waitBetweenEnd c) (h4 : mp < flipBCEnd c) :
    shadeFragment c mp noise texA texB texC pA pB pC =
      specFlipOutput c noise ((mp - waitBetweenEnd c) / (flipBCEnd c - waitBetweenEnd c))
        pB pC texB texC := by
  simp only [shadeFragment]
  rw [if_neg h1, if_neg h2, if_neg h3, if_pos h4]
  rfl

lemma specFlipOutput_no_presence (c : GlitchTextConfig) (r p : ℚ) (src tgt : Vec4) :
    specFlipOutput c r p 0 0 src tgt = mix4 src tgt (flipAmount c r p) := by
  have hz : invertAmount c r p 0 0 = 0 := by
    unfold invertAmount
    rw [max_self, mul_zero]
  unfold specFlipOutput
  rw [hz, if_neg (by norm_num)]

lemma processResizes_no_fire (c : GlitchTextConfig) (utd : Bool) :
    ∀ (rest : List (ℚ × ℚ × ℚ)) (s : ResizeState) (t w h : ℚ),
      gapsLt c.resizeDebounceMs ((t, w, h) :: rest) →
      processResizes c utd (resizeCall c s t w h) rest =
        resizeCall c s (lastCall (t, w, h) rest).1 (lastCall (t, w, h) rest).2.1
          (lastCall (t, w, h) rest).2.2 := by
  intro rest
  induction rest with
  | nil => intro s t w h _; rfl
  | cons head rest ih =>
    intro s t w h hg
    obtain ⟨t2, w2, h2⟩ := head
    obtain ⟨hgap, hrest⟩ := hg
    have hmf : maybeFire c utd (resizeCall c s t w h) t2 = resizeCall c s t w h := by
      simp only [maybeFire, resizeCall]
      rw [if_neg (by linarith)]
    show processResizes c utd
        (resizeCall c (maybeFire c utd (resizeCall c s t w h) t2) t2 w2 h2) rest = _
    rw [hmf]
    exact ih s t2 w2 h2 hrest

/-! ## Claims -/

/-- Claim C1: the timeline's total duration equals
`initialWaitDuration + 2·allTilesFlipDuration + waitBetweenFlipsDuration + finalWaitDuration`
(and the shader's own total agrees with the getter's); for the configuration
`initialWait = 0.2, allTilesFlip = 0.5, betweenWait = 0.3, finalWait = 0.2`
the total duration is 1.7; at `elapsedTime = 0.2` the progress is exactly
`0.2/1.7`; and the shader's phase selection at that progress is the flip A→B
phase, not the initial hold. -/
theorem c1_total_duration_progress_and_phase :
    (∀ c : GlitchTextConfig,
      totalDuration c =
        c.initialWaitDuration + 2 * c.allTilesFlipDuration + c.waitBetweenFlipsDuration +
          c.finalWaitDuration ∧
      shaderTotalDuration c = totalDuration c) ∧
    totalDuration exampleConfig = 17/10 ∧
    (2/10 : ℚ) / totalDuration exampleConfig = 2/17 ∧
    selectPhase exampleConfig ((2/10 : ℚ) / totalDuration exampleConfig) = Phase.flipAB ∧
    selectPhase exampleConfig ((2/10 : ℚ) / totalDuration exampleConfig) ≠ Phase.holdA := by
  refine ⟨fun c => ⟨?_, ?_⟩, ?_, ?_, ?_, ?_⟩
  · unfold totalDuration; ring
  · unfold totalDuration shaderTotalDuration; ring
  · with_unfolding_all decide
  · with_unfolding_all decide
  · with_unfolding_all decide
  · with_unfolding_all decide

/-- Claim C6: validation throws (so construction fails, with no partial
state: `construct` returns before building any engine state) if and only if
one of the listed conditions holds — `singleTileFlipDuration >
allTilesFlipDuration`, a non-positive flip duration, `invertThreshold`
outside `[0,1]` (the boundaries 0 and 1 are accepted, being outside neither
bound), an explicit tile count below 1 in either axis, a non-positive
tile-pixel dimension, or both tile specifications present at once. -/
theorem c6_validation_fails_iff :
    (∀ c : GlitchTextConfig,
      succeeded (validateConfig c) = false ↔
        (c.singleTileFlipDuration > c.allTilesFlipDuration ∨
         c.allTilesFlipDuration ≤ 0 ∨
         c.singleTileFlipDuration ≤ 0 ∨
         c.invertThreshold < 0 ∨
         c.invertThreshold > 1 ∨
         (∃ t, c.tiles = some t ∧ (t.1 < 1 ∨ t.2 < 1)) ∨
         (∃ d, c.tileDimensions = some d ∧ (d.1 ≤ 0 ∨ d.2 ≤ 0)) ∨
         (c.tiles.isSome = true ∧ c.tileDimensions.isSome = true))) ∧
    (∀ (o : GlitchTextOptions) (w h : ℚ),
      succeeded (construct o w h) = succeeded (validateConfig (mkConfig o))) := by
  constructor
  · intro c
    unfold validateConfig
    split_ifs with h1 h2 h3 h4 h5 h6 h7 <;>
      simp_all [succeeded, tilesTooSmall_iff, tileDimensionsNonpositive_iff]
    all_goals tauto
  · exact succeeded_construct

/-- Claim C7: any options record that supplies explicit `tiles` but omits the
`tileDimensions` property entirely fails construction, because the merged
defaults reinstate `tileDimensions = {x: 8, y: 8}` and the mutual-exclusion
check then fires; explicit tile counts are usable only by passing
`tileDimensions` explicitly as `undefined` (witnessed by
`tilesOnlyOptions`, which is identical except for that field and
constructs successfully). -/
theorem c7_omitted_tile_dimensions_always_fails
    (o : GlitchTextOptions) (w h : ℚ) (t : ℤ × ℤ)
    (htiles : o.tiles = some t) (hdims : o.tileDimensions = none) :
    (mkConfig o).tileDimensions = some (8, 8) ∧
    succeeded (construct o w h) = false ∧
    succeeded (construct tilesOnlyOptions w h) = true := by
  have hd : (mkConfig o).tileDimensions = some (8, 8) := by simp [mkConfig, hdims]
  have ht : (mkConfig o).tiles = some t := htiles
  refine ⟨hd, ?_, ?_⟩
  · rw [succeeded_construct]
    unfold validateConfig
    split_ifs with h1 h2 h3 h4 h5 h6 h7
    · rfl
    · rfl
    · rfl
    · rfl
    · rfl
    · rfl
    · rfl
    · exfalso; exact h7 (by simp [ht, hd])
  · rw [succeeded_construct]
    with_unfolding_all decide

/-- Claim C7 witness: with `tilesOmittedDimsOptions` (explicit 4×4 tiles,
`tileDimensions` omitted) construction fails, while `tilesOnlyOptions`
(`tileDimensions` explicitly `undefined`) constructs. -/
theorem c7_omitted_tile_dimensions_always_fails_witness :
    (mkConfig tilesOmittedDimsOptions).tileDimensions = some (8, 8) ∧
    succeeded (construct tilesOmittedDimsOptions 100 50) = false ∧
    succeeded (construct tilesOnlyOptions 100 50) = true :=
  c7_omitted_tile_dimensions_always_fails tilesOmittedDimsOptions 100 50 (4, 4) rfl rfl

/-- Claim C2: for any frame advance with non-negative wall-clock delta, from
a state whose elapsed time lies in `[0, totalDuration]` with consistent
progress: with `direction = +1` elapsed time and progress are non-decreasing,
with `direction = -1` non-increasing; the new progress lies in `[0,1]`, the
new elapsed time again lies in `[0, totalDuration]` with consistent progress
(so the hypotheses are invariant frame over frame); and once progress has
reached 1 (resp. 0), a further advance with `direction = +1` (resp. `-1`)
leaves it at that bound. -/
theorem c2_advance_monotone_clamped_idempotent
    (c : GlitchTextConfig) (s : TimelineState) (dt : ℚ)
    (hT : 0 < totalDuration c) (hdt : 0 ≤ dt)
    (hE0 : 0 ≤ s.totalElapsedTime) (hET : s.totalElapsedTime ≤ totalDuration c)
    (hP : s.morphProgress = s.totalElapsedTime / totalDuration c) :
    (s.direction = 1 →
      s.totalElapsedTime ≤ (animateStep c s dt).totalElapsedTime ∧
      s.morphProgress ≤ (animateStep c s dt).morphProgress) ∧
    (s.direction = -1 →
      (animateStep c s dt).totalElapsedTime ≤ s.totalElapsedTime ∧
      (animateStep c s dt).morphProgress ≤ s.morphProgress) ∧
    (0 ≤ (animateStep c s dt).morphProgress ∧ (animateStep c s dt).morphProgress ≤ 1) ∧
    (0 ≤ (animateStep c s dt).totalElapsedTime ∧
      (animateStep c s dt).totalElapsedTime ≤ totalDuration c) ∧
    (animateStep c s dt).morphProgress =
      (animateStep c s dt).totalElapsedTime / totalDuration c ∧
    (s.direction = 1 → s.morphProgress = 1 → (animateStep c s dt).morphProgress = 1) ∧
    (s.direction = -1 → s.morphProgress = 0 → (animateStep c s dt).morphProgress = 0) := by
  by_cases hdir : s.direction = 0
  · obtain ⟨he, hp, _, _⟩ := animateStep_idle c s dt hdir
    refine ⟨?_, ?_, ?_, ?_, ?_, ?_, ?_⟩
    · intro h1; rw [h1] at hdir; norm_num at hdir
    · intro h1; rw [h1] at hdir; norm_num at hdir
    · rw [hp, hP]
      exact ⟨div_nonneg hE0 hT.le, (div_le_one hT).2 hET⟩
    · rw [he]; exact ⟨hE0, hET⟩
    · rw [hp, he, hP]
    · intro h1; rw [h1] at hdir; norm_num at hdir
    · intro h1; rw [h1] at hdir; norm_num at hdir
  · obtain ⟨he, hp, _, _⟩ := animateStep_active c s dt hdir
    have hbound0 : (0 : ℚ) ≤ (animateStep c s dt).totalElapsedTime := by
      rw [he]; exact le_max_left 0 _
    have hboundT : (animateStep c s dt).totalElapsedTime ≤ totalDuration c := by
      rw [he]; exact max_le hT.le (min_le_left _ _)
    refine ⟨?_, ?_, ?_, ⟨hbound0, hboundT⟩, hp, ?_, ?_⟩
    · intro h1
      have hmono : s.totalElapsedTime ≤ (animateStep c s dt).totalElapsedTime := by
        rw [he, h1]
        push_cast
        refine le_max_of_le_right (le_min hET ?_)
        linarith
      refine ⟨hmono, ?_⟩
      rw [hp, hP]
      exact (div_le_div_iff_of_pos_right hT).2 hmono
    · intro h1
      have hmono : (animateStep c s dt).totalElapsedTime ≤ s.totalElapsedTime := by
        rw [he, h1]
        push_cast
        refine max_le hE0 (le_trans (min_le_right _ _) ?_)
        linarith
      refine ⟨hmono, ?_⟩
      rw [hp, hP]
      exact (div_le_div_iff_of_pos_right hT).2 hmono
    · rw [hp]
      exact ⟨div_nonneg hbound0 hT.le, (div_le_one hT).2 hboundT⟩
    · intro h1 hprog
      rw [hP] at hprog
      have hEeq : s.totalElapsedTime = totalDuration c := by
        have := (div_eq_iff hT.ne').1 hprog
        linarith
      rw [hp, he, h1, hEeq]
      push_cast
      rw [min_eq_left (by linarith), max_eq_right hT.le, div_self hT.ne']
    · intro h1 hprog
      rw [hP] at hprog
      have hEeq : s.totalElapsedTime = 0 := by
        rcases div_eq_zero_iff.1 hprog with h | h
        · exact h
        · exact absurd h hT.ne'
      rw [hp, he, h1, hEeq]
      push_cast
      rw [max_eq_left (le_trans (min_le_right _ _) (by linarith)), zero_div]

/-- Claim C2 witness: a concrete forward advance from the example
configuration's mid-hold state keeps progress within `[0,1]`. -/
theorem c2_advance_monotone_clamped_idempotent_witness :
    0 ≤ (animateStep exampleConfig ⟨1/10, 1/17, 1, 1/17, 0⟩ (1/10)).morphProgress ∧
    (animateStep exampleConfig ⟨1/10, 1/17, 1, 1/17, 0⟩ (1/10)).morphProgress ≤ 1 :=
  (c2_advance_monotone_clamped_idempotent exampleConfig ⟨1/10, 1/17, 1, 1/17, 0⟩ (1/10)
    (by with_unfolding_all decide) (by with_unfolding_all decide)
    (by with_unfolding_all decide) (by with_unfolding_all decide)
    (by with_unfolding_all decide)).2.2.1

/-- Claim C10: from construction until the first `setHover` call the
direction is 0 and any sequence of frame advances leaves `elapsedTime`,
`progress` and the `uMorphProgress` uniform at 0 (so, when the initial wait
phase is non-empty, the shader stays in the hold-on-text-A branch); the very
first `setHover(false)` sets the direction to -1 — it is not a no-op
relative to the initial 0 direction — and afterwards any sequence of
non-negative frame advances keeps progress pinned at 0. -/
theorem c10_initial_zero_direction_and_first_unhover
    (c : GlitchTextConfig) (dts dts2 : List ℚ) (hdts2 : ∀ dt ∈ dts2, 0 ≤ dt) :
    ((List.foldl (animateStep c) initialTimeline dts).totalElapsedTime = 0 ∧
     (List.foldl (animateStep c) initialTimeline dts).morphProgress = 0 ∧
     (List.foldl (animateStep c) initialTimeline dts).uMorphProgress = 0 ∧
     (List.foldl (animateStep c) initialTimeline dts).direction = 0) ∧
    (0 < initialWaitEnd c →
      selectPhase c (List.foldl (animateStep c) initialTimeline dts).morphProgress =
        Phase.holdA) ∧
    initialTimeline.direction = 0 ∧
    (setHover initialTimeline false).direction = -1 ∧
    ((List.foldl (animateStep c) (setHover initialTimeline false) dts2).totalElapsedTime = 0 ∧
     (List.foldl (animateStep c) (setHover initialTimeline false) dts2).morphProgress = 0 ∧
     (List.foldl (animateStep c) (setHover initialTimeline false) dts2).uMorphProgress = 0) := by
  obtain ⟨i1, i2, i3, i4⟩ := foldl_idle c dts initialTimeline rfl
  have hsh : setHover initialTimeline false = ⟨0, 0, -1, 0, 0⟩ := by
    with_unfolding_all decide
  have hpin := foldl_pinned_zero c dts2 hdts2 ⟨0, 0, -1, 0, 0⟩ rfl rfl rfl rfl
  refine ⟨⟨i1, i2, i3, i4⟩, ?_, rfl, ?_, ?_⟩
  · intro hpos
    have h0 : initialTimeline.morphProgress = (0 : ℚ) := rfl
    rw [i2, h0]
    unfold selectPhase
    rw [if_pos hpos]
  · rw [hsh]
  · rw [hsh]
    exact ⟨hpin.1, hpin.2.1, hpin.2.2.1⟩

/-- Claim C10 witness: with the example configuration, two idle frames keep
everything at 0, and after the first `setHover(false)` two more frames with
positive deltas keep progress at 0. -/
theorem c10_initial_zero_direction_and_first_unhover_witness :
    (List.foldl (animateStep exampleConfig) (setHover initialTimeline false)
        [1/10, 2/10]).totalElapsedTime = 0 ∧
    (List.foldl (animateStep exampleConfig) (setHover initialTimeline false)
        [1/10, 2/10]).morphProgress = 0 ∧
    (List.foldl (animateStep exampleConfig) (setHover initialTimeline false)
        [1/10, 2/10]).uMorphProgress = 0 :=
  (c10_initial_zero_direction_and_first_unhover exampleConfig [5/100] [1/10, 2/10]
    (by with_unfolding_all decide)).2.2.2.2

/-- Claim C4: in either flip phase the shader's per-tile schedule is exactly
the spec's formulas — `flipWindowStart = r·(allTilesFlip − singleTileFlip)/allTilesFlip`,
`flipWindowEnd = flipWindowStart + singleTileFlip/allTilesFlip`,
`flipAmount = smoothstep(flipWindowStart, flipWindowEnd, p)` at the
phase-local progress `p`, `invert = step(invertThreshold, r)·flipAmount·max(presenceSource, presenceTarget)`,
with the source colour replaced by RGB black and alpha `1 − originalAlpha`
when `invert > 0.5` and the result blended toward the target by
`flipAmount`. -/
theorem c4_per_tile_flip_schedule
    (c : GlitchTextConfig) (mp noise : ℚ) (texA texB texC : Vec4) (pA pB pC : ℚ) :
    (∀ r, flipWindowStart c r =
      r * (c.allTilesFlipDuration - c.singleTileFlipDuration) / c.allTilesFlipDuration) ∧
    (∀ r, flipWindowEnd c r =
      flipWindowStart c r + c.singleTileFlipDuration / c.allTilesFlipDuration) ∧
    (∀ r p, flipAmount c r p = smoothstep (flipWindowStart c r) (flipWindowEnd c r) p) ∧
    (∀ r p pS pT, invertAmount c r p pS pT =
      glslStep c.invertThreshold r * flipAmount c r p * max pS pT) ∧
    (¬ mp < initialWaitEnd c → mp < flipABEnd c →
      shadeFragment c mp noise texA texB texC pA pB pC =
        specFlipOutput c noise ((mp - initialWaitEnd c) / (flipABEnd c - initialWaitEnd c))
          pA pB texA texB) ∧
    (¬ mp < initialWaitEnd c → ¬ mp < flipABEnd c → ¬ mp < waitBetweenEnd c →
      mp < flipBCEnd c →
      shadeFragment c mp noise texA texB texC pA pB pC =
        specFlipOutput c noise ((mp - waitBetweenEnd c) / (flipBCEnd c - waitBetweenEnd c))
          pB pC texB texC) :=
  ⟨fun _ => rfl, fun _ => rfl, fun _ _ => rfl, fun _ _ _ _ => rfl,
   shadeFragment_flipAB c mp noise texA texB texC pA pB pC,
   shadeFragment_flipBC c mp noise texA texB texC pA pB pC⟩

/-- Claim C4 witness: a concrete fragment in the flip A→B phase of the
example configuration. -/
theorem c4_per_tile_flip_schedule_witness :
    shadeFragment exampleConfig (2/17) (1/3) ⟨1, 1, 1, 1⟩ ⟨0, 0, 0, 0⟩ ⟨1, 0, 0, 1⟩ 1 1 0 =
      specFlipOutput exampleConfig (1/3)
        (((2 : ℚ)/17 - initialWaitEnd exampleConfig) /
          (flipABEnd exampleConfig - initialWaitEnd exampleConfig))
        1 1 ⟨1, 1, 1, 1⟩ ⟨0, 0, 0, 0⟩ :=
  (c4_per_tile_flip_schedule exampleConfig (2/17) (1/3)
      ⟨1, 1, 1, 1⟩ ⟨0, 0, 0, 0⟩ ⟨1, 0, 0, 1⟩ 1 1 0).2.2.2.2.1
    (by with_unfolding_all decide) (by with_unfolding_all decide)

/-- Claim C5: during an active flip phase, a tile whose presence mask is 0 in
both the phase's source and target text never renders the inverted
(black-RGB, flipped-alpha) state: the output is exactly the plain blend of
source toward target by `flipAmount`, for every per-tile random value and
every progress inside the phase. -/
theorem c5_no_invert_without_presence
    (c : GlitchTextConfig) (mp noise : ℚ) (texA texB texC : Vec4) (pC pA : ℚ) :
    (¬ mp < initialWaitEnd c → mp < flipABEnd c →
      shadeFragment c mp noise texA texB texC 0 0 pC =
        mix4 texA texB
          (flipAmount c noise ((mp - initialWaitEnd c) / (flipABEnd c - initialWaitEnd c)))) ∧
    (¬ mp < initialWaitEnd c → ¬ mp < flipABEnd c → ¬ mp < waitBetweenEnd c →
      mp < flipBCEnd c →
      shadeFragment c mp noise texA texB texC pA 0 0 =
        mix4 texB texC
          (flipAmount c noise ((mp - waitBetweenEnd c) / (flipBCEnd c - waitBetweenEnd c)))) := by
  constructor
  · intro h1 h2
    rw [shadeFragment_flipAB c mp noise texA texB texC 0 0 pC h1 h2,
      specFlipOutput_no_presence]
  · intro h1 h2 h3 h4
    rw [shadeFragment_flipBC c mp noise texA texB texC pA 0 0 h1 h2 h3 h4,
      specFlipOutput_no_presence]

/-- Claim C5 witness: a concrete blank tile (presence 0 in both endpoint
texts) in the flip A→B phase of the example configuration, with a random
value at which a present tile would invert. -/
theorem c5_no_invert_without_presence_witness :
    shadeFragment exampleConfig (5/17) (9/10) ⟨1, 1, 1, 1⟩ ⟨0, 0, 0, 0⟩ ⟨1, 0, 0, 1⟩ 0 0 1 =
      mix4 ⟨1, 1, 1, 1⟩ ⟨0, 0, 0, 0⟩
        (flipAmount exampleConfig (9/10)
          (((5 : ℚ)/17 - initialWaitEnd exampleConfig) /
            (flipABEnd exampleConfig - initialWaitEnd exampleConfig))) :=
  (c5_no_invert_without_presence exampleConfig (5/17) (9/10)
      ⟨1, 1, 1, 1⟩ ⟨0, 0, 0, 0⟩ ⟨1, 0, 0, 1⟩ 1 0).1
    (by with_unfolding_all decide) (by with_unfolding_all decide)

/-- Claim C3 counterexample: on a 5×1 surface with 3×1 tiles
(`cellSize = 5/3`), tile 1's only inked pixel under the claim's rectangle
formula — from `floor(tileIndex·cellSize)` to
`min(ceil((tileIndex+1)·cellSize), surfaceExtent)`, here `[1, 4)` — is
`(3, 0)`, yet the code computes presence 0 for that tile (it scans only
`[1, 3) = [floor(1·5/3), floor(1·5/3) + ceil(5/3))`), so the claimed "255
iff an inked pixel lies in that rectangle" is false. -/
theorem c3_presence_rectangle_counterexample :
    presenceValue counterexampleAlpha 5 1 3 1 1 0 = 0 ∧
    (∃ y ∈ Finset.Ico (⌊(0 : ℚ) * ((1 : ℚ) / (1 : ℚ))⌋)
        (min ⌈((0 : ℚ) + 1) * ((1 : ℚ) / (1 : ℚ))⌉ 1),
      ∃ x ∈ Finset.Ico (⌊(1 : ℚ) * ((5 : ℚ) / (3 : ℚ))⌋)
        (min ⌈((1 : ℚ) + 1) * ((5 : ℚ) / (3 : ℚ))⌉ 5),
        0 < counterexampleAlpha x y) ∧
    presenceValueSpec counterexampleAlpha 5 1 3 1 1 0 = 255 := by
  with_unfolding_all decide

/-- Claim C3 (amended): a tile's presence value is 255 iff at least one
pixel with non-zero alpha lies in the rectangle from
`floor(tileIndex·cellSize)` (inclusive) to
`min(floor(tileIndex·cellSize) + ceil(cellSize), surfaceExtent)` (exclusive)
in each axis — not `min(ceil((tileIndex+1)·cellSize), surfaceExtent)` — and
the scan never reads a pixel outside the surface. -/
theorem c3_presence_scan_amended (pixelsAlpha : ℤ → ℤ → ℕ) (w h tx ty tX tY : ℤ)
    (hw : 0 < w) (hh : 0 < h) (htx : 0 < tx) (hty : 0 < ty)
    (hX : 0 ≤ tX) (hY : 0 ≤ tY) :
    (presenceValue pixelsAlpha w h tx ty tX tY = 255 ↔
      ∃ y ∈ Finset.Ico ⌊(tY : ℚ) * ((h : ℚ) / (ty : ℚ))⌋
          (min (⌊(tY : ℚ) * ((h : ℚ) / (ty : ℚ))⌋ + ⌈(h : ℚ) / (ty : ℚ)⌉) h),
        ∃ x ∈ Finset.Ico ⌊(tX : ℚ) * ((w : ℚ) / (tx : ℚ))⌋
          (min (⌊(tX : ℚ) * ((w : ℚ) / (tx : ℚ))⌋ + ⌈(w : ℚ) / (tx : ℚ)⌉) w),
          0 < pixelsAlpha x y) ∧
    (∀ x y : ℤ,
      x ∈ Finset.Ico ⌊(tX : ℚ) * ((w : ℚ) / (tx : ℚ))⌋
          (min (⌊(tX : ℚ) * ((w : ℚ) / (tx : ℚ))⌋ + ⌈(w : ℚ) / (tx : ℚ)⌉) w) →
      y ∈ Finset.Ico ⌊(tY : ℚ) * ((h : ℚ) / (ty : ℚ))⌋
          (min (⌊(tY : ℚ) * ((h : ℚ) / (ty : ℚ))⌋ + ⌈(h : ℚ) / (ty : ℚ)⌉) h) →
      0 ≤ x ∧ x < w ∧ 0 ≤ y ∧ y < h) := by
  constructor
  · simp only [presenceValue, scanTileForText]
    split_ifs with hs
    · exact iff_of_true rfl (of_decide_eq_true hs)
    · refine iff_of_false (by norm_num) ?_
      intro hp
      exact hs (decide_eq_true hp)
  · intro x y hx hy
    rw [Finset.mem_Ico] at hx hy
    have hX0 : (0 : ℤ) ≤ ⌊(tX : ℚ) * ((w : ℚ) / (tx : ℚ))⌋ := by
      apply Int.floor_nonneg.2
      apply mul_nonneg
      · exact_mod_cast hX
      · apply div_nonneg
        · exact_mod_cast hw.le
        · exact_mod_cast htx.le
    have hY0 : (0 : ℤ) ≤ ⌊(tY : ℚ) * ((h : ℚ) / (ty : ℚ))⌋ := by
      apply Int.floor_nonneg.2
      apply mul_nonneg
      · exact_mod_cast hY
      · apply div_nonneg
        · exact_mod_cast hh.le
        · exact_mod_cast hty.le
    exact ⟨le_trans hX0 hx.1, lt_of_lt_of_le hx.2 (min_le_right _ _),
      le_trans hY0 hy.1, lt_of_lt_of_le hy.2 (min_le_right _ _)⟩

/-- Claim C3 witness: on the 5×1 surface the code's own rectangle for tile
`(1, 0)` contains pixel `(2, 0)`, which the in-bounds part places inside the
surface. -/
theorem c3_presence_scan_amended_witness :
    0 ≤ (2 : ℤ) ∧ (2 : ℤ) < 5 ∧ 0 ≤ (0 : ℤ) ∧ (0 : ℤ) < 1 :=
  (c3_presence_scan_amended counterexampleAlpha 5 1 3 1 1 0
      (by decide) (by decide) (by decide) (by decide) (by decide) (by decide)).2 2 0
    (by with_unfolding_all decide) (by with_unfolding_all decide)

/-- Claim C8: a nonempty burst of resize calls, each issued strictly less
than the debounce interval after the previous one and starting from a state
with no pending timer, produces exactly one texture/presence regeneration,
sized to the last call's dimensions; every individual call immediately
updates the renderer size and the resolution uniform; and in tile-pixel-size
mode the settled regeneration recomputes the tile grid from the last call's
dimensions. -/
theorem c8_resize_debounce_coalesces (c : GlitchTextConfig) (utd : Bool)
    (s0 : ResizeState) (t w h : ℚ) (rest : List (ℚ × ℚ × ℚ))
    (hfresh : s0.resizeTimeout = none)
    (hg : gapsLt c.resizeDebounceMs ((t, w, h) :: rest)) :
    (∀ (s : ResizeState) (now width height : ℚ),
      (resizeCall c s now width height).rendererWidth = width ∧
      (resizeCall c s now width height).rendererHeight = height ∧
      (resizeCall c s now width height).resolutionX = width ∧
      (resizeCall c s now width height).resolutionY = height) ∧
    (settle c utd (processResizes c utd s0 ((t, w, h) :: rest))).regenerations =
      s0.regenerations ++
        [((lastCall (t, w, h) rest).2.1, (lastCall (t, w, h) rest).2.2)] ∧
    (settle c utd (processResizes c utd s0 ((t, w, h) :: rest))).resizeTimeout = none ∧
    (settle c utd (processResizes c utd s0 ((t, w, h) :: rest))).rendererWidth =
      (lastCall (t, w, h) rest).2.1 ∧
    (settle c utd (processResizes c utd s0 ((t, w, h) :: rest))).rendererHeight =
      (lastCall (t, w, h) rest).2.2 ∧
    (utd = true →
      (settle c utd (processResizes c utd s0 ((t, w, h) :: rest))).tilesGrid =
        calculateTiles c (lastCall (t, w, h) rest).2.1 (lastCall (t, w, h) rest).2.2) := by
  have hrun : processResizes c utd s0 ((t, w, h) :: rest) =
      resizeCall c s0 (lastCall (t, w, h) rest).1 (lastCall (t, w, h) rest).2.1
        (lastCall (t, w, h) rest).2.2 := by
    show processResizes c utd (resizeCall c (maybeFire c utd s0 t) t w h) rest = _
    rw [show maybeFire c utd s0 t = s0 from by simp [maybeFire, hfresh]]
    exact processResizes_no_fire c utd rest s0 t w h hg
  refine ⟨fun s now width height => ⟨rfl, rfl, rfl, rfl⟩, ?_, ?_, ?_, ?_, ?_⟩
  · rw [hrun]; cases utd <;> rfl
  · rw [hrun]; cases utd <;> rfl
  · rw [hrun]; cases utd <;> rfl
  · rw [hrun]; cases utd <;> rfl
  · intro hu; rw [hrun, hu]; rfl

/-- Claim C8 witness: two resize calls 50 ms apart under a 100 ms debounce
regenerate exactly once, at the second call's size. -/
theorem c8_resize_debounce_coalesces_witness :
    (settle exampleConfig true (processResizes exampleConfig true freshResizeState
        [(0, 10, 20), (50, 30, 40)])).regenerations =
      freshResizeState.regenerations ++
        [((lastCall (0, 10, 20) [(50, 30, 40)]).2.1,
          (lastCall (0, 10, 20) [(50, 30, 40)]).2.2)] :=
  (c8_resize_debounce_coalesces exampleConfig true freshResizeState 0 10 20 [(50, 30, 40)]
    rfl ⟨by with_unfolding_all decide, trivial⟩).2.1

/-- Claim C9: after `destroy()` no frame callback can run again and the
debounce timer cannot fire again (both pending ids are cancelled, browsers
never issuing a 0 timer id), and the nine GPU resource handles — the three
text textures, the three presence textures, the renderer, the shader
material and the mesh geometry — are each disposed exactly once, in source
order. -/
theorem c9_destroy_cancels_and_disposes (s : TeardownState)
    (hid : s.resizeTimeout = none ∨ ∃ id, s.resizeTimeout = some id ∧ id ≠ 0) :
    ¬ frameCallbackPending (destroy s) ∧
    ¬ debounceTimerPending (destroy s) ∧
    (destroy s).disposed = s.disposed ++
      [s.texA, s.texB, s.texC, s.presenceA, s.presenceB, s.presenceC,
       s.renderer, s.material, s.geometry] ∧
    (s.disposed = [] →
      List.Nodup [s.texA, s.texB, s.texC, s.presenceA, s.presenceB, s.presenceC,
        s.renderer, s.material, s.geometry] →
      ∀ r ∈ [s.texA, s.texB, s.texC, s.presenceA, s.presenceB, s.presenceC,
        s.renderer, s.material, s.geometry],
        ((destroy s).disposed).count r = 1) := by
  have hdis : (destroy s).disposed = s.disposed ++
      [s.texA, s.texB, s.texC, s.presenceA, s.presenceB, s.presenceC,
       s.renderer, s.material, s.geometry] := by
    rcases hid with hrt | ⟨id0, hrt, hnz⟩
    · cases haf : s.animationFrame <;> simp [destroy, dispose, haf, hrt]
    · cases haf : s.animationFrame <;> simp [destroy, dispose, haf, hrt, hnz]
  refine ⟨?_, ?_, hdis, ?_⟩
  · unfold frameCallbackPending
    rcases hid with hrt | ⟨id0, hrt, hnz⟩
    · cases haf : s.animationFrame <;> simp [destroy, dispose, haf, hrt]
    · cases haf : s.animationFrame <;> simp [destroy, dispose, haf, hrt, hnz]
  · unfold debounceTimerPending
    rcases hid with hrt | ⟨id0, hrt, hnz⟩
    · cases haf : s.animationFrame <;> simp [destroy, dispose, haf, hrt]
    · cases haf : s.animationFrame <;> simp [destroy, dispose, haf, hrt, hnz]
  · intro hempty hnodup r hr
    rw [hdis, hempty, List.nil_append]
    exact List.count_eq_one_of_mem hnodup hr

/-- Claim C9 witness: destroying a state with a pending frame request and a
pending debounce timer leaves neither able to fire. -/
theorem c9_destroy_cancels_and_disposes_witness :
    ¬ frameCallbackPending (destroy exampleTeardown) ∧
    ¬ debounceTimerPending (destroy exampleTeardown) :=
  ⟨(c9_destroy_cancels_and_disposes exampleTeardown (Or.inr ⟨3, rfl, by decide⟩)).1,
   (c9_destroy_cancels_and_disposes exampleTeardown (Or.inr ⟨3, rfl, by decide⟩)).2.1⟩

end GlitchText
